import Mathlib

/-
Verification of the Risk Scoring & Import-Pressure Engine
(src/backend/app/services/risk_engine.py) against its specification.

Shallow embedding conventions:
- Python floats are modelled as rationals (ℚ); IEEE NaN is not representable
  in this model and float rounding error is ignored.
- datetimes are modelled as integer day numbers (ℤ); a missing "timestamp"
  key is `none` and plays the role of `datetime.min` in sort keys (we assume
  no genuine timestamp equals `datetime.min`).  `(a - b).days` on whole-day
  datetimes is exactly `a - b` in this model.
- Python dicts with optional keys become structures with `Option` fields;
  `d.get(k, default)` becomes an explicit match.  The `risk_map` dict is an
  association list with unique keys, looked up by `List.lookup`.
- Python's `sorted` is guaranteed stable (also with `reverse=True`, which
  keeps equal-key elements in their original order); we model it with a
  stable insertion sort on the same key.
- `math.sqrt` is abstracted as a parameter `sqrtf : ℕ → ℚ` (it is only ever
  applied to the small integer horizon step); `round(x, 1)` is modelled by
  `round1` below (round to nearest tenth; Python breaks exact ties to even,
  a case that never arises in the facts proved here).
-/

namespace RiskEngine

/-- SurveillanceSample: one wastewater record
`{"timestamp": datetime, "raw_load": float, "normalized_score": float}`,
every key optional. -/
structure Sample where
  timestamp : Option ℤ
  raw_load : Option ℚ
  normalized_score : Option ℚ
deriving DecidableEq

/-- FlowRecord as consumed by `_calculate_import_component`:
`{"origin_id": str, "passengers": int}` (the `.get` defaults `""` and `0`
are already applied, so the fields are total). -/
structure Flight where
  origin_id : String
  passengers : ℤ
deriving DecidableEq

/-- Dict mapping origin location ids to their prior risk scores. -/
abbrev RiskMap := List (String × ℚ)

/-- RiskComponents dataclass (raw, un-rounded fields). -/
structure RiskComponents where
  wastewater_load : ℚ
  growth_velocity : ℚ
  import_pressure : ℚ
deriving DecidableEq

/-- RiskCalculation dataclass (raw, un-rounded fields). -/
structure RiskCalculation where
  location_id : String
  risk_score : ℚ
  components : RiskComponents
  confidence : ℚ
  trend : String
  last_updated : ℤ
deriving DecidableEq

/-- Component weight `WEIGHT_WASTEWATER = 0.40`. -/
def WEIGHT_WASTEWATER : ℚ := 2/5

/-- Component weight `WEIGHT_VELOCITY = 0.30`. -/
def WEIGHT_VELOCITY : ℚ := 3/10

/-- Component weight `WEIGHT_IMPORT = 0.30`. -/
def WEIGHT_IMPORT : ℚ := 3/10

/-- Normalization ceiling `WASTEWATER_MAX = 1e9`. -/
def WASTEWATER_MAX : ℚ := 10^9

/-- Velocity clamp `VELOCITY_MAX = 0.5`. -/
def VELOCITY_MAX : ℚ := 1/2

/-- Trend threshold `TREND_RISING_THRESHOLD = 0.05`. -/
def TREND_RISING_THRESHOLD : ℚ := 1/20

/-- Trend threshold `TREND_FALLING_THRESHOLD = -0.05`. -/
def TREND_FALLING_THRESHOLD : ℚ := -(1/20)

/-- Data quality threshold `MIN_DATA_POINTS = 3`. -/
def MIN_DATA_POINTS : ℕ := 3

/-- Data quality threshold `MAX_DATA_AGE_DAYS = 14`. -/
def MAX_DATA_AGE_DAYS : ℤ := 14

/-- Sort key `x.get("timestamp", datetime.min)`: `none` stands for the
`datetime.min` default used for a missing key. -/
def tsKey (s : Sample) : Option ℤ := s.timestamp

/-- Strict order on timestamp keys; `none` (= `datetime.min`) is below every
real timestamp. -/
def tsLt : Option ℤ → Option ℤ → Bool
  | none, none => false
  | none, some _ => true
  | some _, none => false
  | some a, some b => decide (a < b)

/-- Stable-descending insertion: a later-ingested sample is placed after all
samples with an equal or larger key, exactly as Python's stable
`sorted(..., reverse=True)` orders ties. -/
def insertDescTs (x : Sample) : List Sample → List Sample
  | [] => [x]
  | y :: ys => if tsLt (tsKey x) (tsKey y) then y :: insertDescTs x ys else x :: y :: ys

/-- Model of `sorted(wastewater_data, key=λx: x.get("timestamp", datetime.min), reverse=True)`
(stable, descending by timestamp). -/
def sortDescTs : List Sample → List Sample
  | [] => []
  | x :: xs => insertDescTs x (sortDescTs xs)

/-- Stable-ascending insertion: a later-ingested sample is placed after all
samples with an equal or smaller key. -/
def insertAscTs (x : Sample) : List Sample → List Sample
  | [] => [x]
  | y :: ys => if tsLt (tsKey y) (tsKey x) then y :: insertAscTs x ys else x :: y :: ys

/-- Model of `sorted(wastewater_data, key=λx: x.get("timestamp", datetime.min))`
(stable, ascending by timestamp). -/
def sortAscTs : List Sample → List Sample
  | [] => []
  | x :: xs => insertAscTs x (sortAscTs xs)

/-- Model of Python's `max(ww, key=λx: x.get("timestamp", datetime.min))` on
`x :: xs`: the FIRST element attaining the maximal key (Python's `max`
replaces the current best only on strict `>`). -/
def firstMaxTs (x : Sample) (xs : List Sample) : Sample :=
  xs.foldl (fun c y => if tsLt (tsKey c) (tsKey y) then y else c) x

/-- Second half of `RiskEngine._get_load`: the `raw_load` fallback
(`if "raw_load" in dp and dp["raw_load"]: return dp["raw_load"]/WASTEWATER_MAX`,
else `0.0`; Python truthiness makes `raw_load == 0.0` falsy). -/
def rawLoadPart (s : Sample) : ℚ :=
  match s.raw_load with
  | some r => if r = 0 then 0 else r / WASTEWATER_MAX
  | none => 0

/-- From `RiskEngine._get_load`: `normalized_score` when present and truthy
(so `0.0` and `None` both fall through), else the `raw_load` fallback. -/
def get_load (s : Sample) : ℚ :=
  match s.normalized_score with
  | some q => if q = 0 then rawLoadPart s else q
  | none => rawLoadPart s

/-- From `RiskEngine._calculate_average_load`: mean of the strictly positive
loads, `0.0` when none are positive. -/
def calculate_average_load (data : List Sample) : ℚ :=
  let valid_loads := (data.map get_load).filter (fun l => decide (0 < l))
  if valid_loads = [] then 0 else valid_loads.sum / valid_loads.length

/-- Body of `RiskEngine._calculate_wastewater_component` after `recent`
(the head of the descending sort) is selected: `normalized_score` path if the
key is present and not `None` (note: presence test here, not truthiness),
else `raw_load` path, else the default `50.0`. -/
def scoreOfRecent (recent : Sample) : ℚ :=
  match recent.normalized_score with
  | some ns => min 100 (max 0 (ns * 100))
  | none =>
    match recent.raw_load with
    | some r => min 1 (r / WASTEWATER_MAX) * 100
    | none => 50

/-- From `RiskEngine._calculate_wastewater_component`: `50.0` on an empty
sample list, else the score of `sorted(..., reverse=True)[0]`. -/
def calculate_wastewater_component (wastewater_data : List Sample) : ℚ :=
  match sortDescTs wastewater_data with
  | [] => 50
  | recent :: _ => scoreOfRecent recent

/-- From `RiskEngine._calculate_velocity_component`: week-over-week relative
change of the (positive-load) rolling averages, clamped to
`[-VELOCITY_MAX, VELOCITY_MAX]` and mapped linearly onto `[0, 100]`. -/
def calculate_velocity_component (wastewater_data : List Sample) : ℚ :=
  if wastewater_data.length < 2 then 50
  else
    let sorted_data := sortAscTs wastewater_data
    let n := sorted_data.length
    let velocity :=
      if 7 ≤ n then
        let recent_week := sorted_data.drop (n - 7)
        let prior_week := if 14 ≤ n then (sorted_data.drop (n - 14)).take 7 else sorted_data.take 7
        let recent_avg := calculate_average_load recent_week
        let prior_avg := calculate_average_load prior_week
        if 0 < prior_avg then (recent_avg - prior_avg) / prior_avg else 0
      else
        let newest := match sorted_data.getLast? with | some s => get_load s | none => 0
        let oldest := match sorted_data.head? with | some s => get_load s | none => 0
        if 0 < oldest then (newest - oldest) / oldest else 0
    let v := max (-VELOCITY_MAX) (min VELOCITY_MAX velocity)
    (v / VELOCITY_MAX + 1) / 2 * 100

/-- Truthiness of an optional list argument: Python's `if not flight_data`
is true for both `None` and `[]`. -/
def emptyOpt {α : Type} : Option (List α) → Bool
  | none => true
  | some l => l.isEmpty

/-- From `RiskEngine._calculate_import_component`: passenger-weighted origin
risk scaled by a volume factor; `30.0` defaults when flows or the risk map
are missing/empty or when the total passenger count is zero. -/
def calculate_import_component (flight_data : Option (List Flight)) (risk_map : Option RiskMap) : ℚ :=
  if emptyOpt flight_data || emptyOpt risk_map then 30
  else
    let fl := flight_data.getD []
    let rm := risk_map.getD []
    let total_risk_weighted_pax : ℚ :=
      (fl.map (fun f => (f.passengers : ℚ) * ((List.lookup f.origin_id rm).getD 50 / 100))).sum
    let total_passengers : ℤ := (fl.map (fun f => f.passengers)).sum
    if total_passengers = 0 then 30
    else
      let avg_import_risk := total_risk_weighted_pax / (total_passengers : ℚ)
      let volume_factor : ℚ := min 1 ((total_passengers : ℚ) / 10000)
      let import_component := avg_import_risk * 100 * (1/2 + 1/2 * volume_factor)
      min 100 (max 0 import_component)

/-- Final classification step of `RiskEngine._determine_trend`: compare the
relative slope against the ±0.05 thresholds. -/
def classifySlope (relative_slope : ℚ) : String :=
  if TREND_RISING_THRESHOLD < relative_slope then "rising"
  else if relative_slope < TREND_FALLING_THRESHOLD then "falling"
  else "stable"

/-- Core of `RiskEngine._determine_trend` once the last-7 load list is
extracted: OLS slope of the loads against their index `0..n-1`, divided by
the load mean (0 when the mean is not positive), then classified. -/
def trendOfLoads (loads : List ℚ) : String :=
  if loads.length < 3 then "stable"
  else
    let n : ℕ := loads.length
    let x_mean : ℚ := ((n : ℚ) - 1) / 2
    let y_mean : ℚ := loads.sum / (n : ℚ)
    let num := ((List.range n).map (fun (i : ℕ) => ((i : ℚ) - x_mean) * (loads.getD i 0 - y_mean))).sum
    let denom := ((List.range n).map (fun (i : ℕ) => ((i : ℚ) - x_mean) ^ 2)).sum
    if denom = 0 then "stable"
    else classifySlope (if 0 < y_mean then (num / denom) / y_mean else 0)

/-- From `RiskEngine._determine_trend`: "stable" below 3 samples, else the
OLS-based classification of the last 7 loads of the timestamp-sorted data. -/
def determine_trend (wastewater_data : List Sample) : String :=
  if wastewater_data.length < 3 then "stable"
  else
    let sorted_data := sortAscTs wastewater_data
    trendOfLoads ((sorted_data.drop (sorted_data.length - 7)).map get_load)

/-- From `RiskEngine._calculate_confidence`: multiplicative penalties for
sparse, stale, or missing data, clamped into `[0.1, 1.0]`.  `now` is the
value of `datetime.utcnow()` at call time, in days. -/
def calculate_confidence (now : ℤ) (wastewater_data : List Sample)
    (flight_data : Option (List Flight)) : ℚ :=
  let c1 : ℚ :=
    if wastewater_data.length = 0 then 1 * (1/2)
    else if wastewater_data.length < MIN_DATA_POINTS then 1 * (7/10)
    else 1
  let c2 : ℚ :=
    match wastewater_data with
    | [] => c1
    | x :: xs =>
      match (firstMaxTs x xs).timestamp with
      | some latest_ts =>
        let age_days := now - latest_ts
        if MAX_DATA_AGE_DAYS < age_days then c1 * (1/2)
        else if 7 < age_days then c1 * (4/5)
        else c1
      | none => c1
  let c3 : ℚ := if emptyOpt flight_data then c2 * (9/10) else c2
  max (1/10) (min 1 c3)

/-- Weighted combination on lines 114-118 of `calculate_risk`:
`W_WASTEWATER*w + W_VELOCITY*v + W_IMPORT*i` (no further clamp in the code). -/
def composeScore (w v i : ℚ) : ℚ :=
  WEIGHT_WASTEWATER * w + WEIGHT_VELOCITY * v + WEIGHT_IMPORT * i

/-- From `RiskEngine.calculate_risk`: components, composed score, trend,
confidence and the `last_updated = datetime.utcnow()` stamp.  `now` makes the
two reads of the ambient clock explicit. -/
def calculate_risk (now : ℤ) (location_id : String) (wastewater_data : List Sample)
    (flight_data : Option (List Flight)) (risk_map : Option RiskMap) : RiskCalculation :=
  let w := calculate_wastewater_component wastewater_data
  let v := calculate_velocity_component wastewater_data
  let i := calculate_import_component flight_data risk_map
  { location_id := location_id
    risk_score := composeScore w v i
    components := ⟨w, v, i⟩
    confidence := calculate_confidence now wastewater_data flight_data
    trend := determine_trend wastewater_data
    last_updated := now }

/-- From `RiskEngine.__init__`, whose entire body is `pass`: construction
performs no validation of the weight constants and cannot fail. -/
def engineInit : Except String Unit := Except.ok ()

/-- Historical point `{"date": str, "risk_score": float}` consumed by
`calculate_forecast`.  ISO date strings compare lexicographically exactly as
their day numbers, so the date is modelled directly as a day number (the
`.get("date", "")` default for a missing key is not modelled). -/
structure HistPoint where
  date : ℤ
  risk_score : Option ℚ
deriving DecidableEq

/-- ForecastPoint dict produced by `calculate_forecast` /
`_generate_flat_forecast` (date as a day number, scores rounded to one
decimal exactly as the code rounds them). -/
structure ForecastPoint where
  date : ℤ
  risk_score : ℚ
  confidence_low : ℚ
  confidence_high : ℚ
deriving DecidableEq

/-- Model of Python's `round(x, 1)`: round to the nearest tenth (Python
breaks exact ties to even; no fact proved here sits on such a tie). -/
def round1 (x : ℚ) : ℚ := (round (x * 10) : ℤ) / 10

/-- Stable-ascending insertion by date for historical points. -/
def insertAscDate (x : HistPoint) : List HistPoint → List HistPoint
  | [] => [x]
  | y :: ys => if y.date < x.date then y :: insertAscDate x ys else x :: y :: ys

/-- Model of `sorted(historical_data, key=λx: x.get("date", ""))`. -/
def sortAscDate : List HistPoint → List HistPoint
  | [] => []
  | x :: xs => insertAscDate x (sortAscDate xs)

/-- Tail of the exponential smoothing loop
(`smoothed.append(0.3*scores[i] + 0.7*smoothed[-1])`). -/
def expSmoothAux (prev : ℚ) : List ℚ → List ℚ
  | [] => []
  | x :: xs =>
    let s := (3/10) * x + (7/10) * prev
    s :: expSmoothAux s xs

/-- Exponential smoothing with α = 0.3 starting from `smoothed = [scores[0]]`. -/
def expSmooth : List ℚ → List ℚ
  | [] => []
  | x :: xs => x :: expSmoothAux x xs

/-- From `RiskEngine._generate_flat_forecast`: `days` points at the (rounded)
last score, with band `base_confidence = 10.0` times `sqrt(i)`.  `today` is
`datetime.utcnow().date()`; `sqrtf` models `math.sqrt`. -/
def generate_flat_forecast (sqrtf : ℕ → ℚ) (today : ℤ) (last_score : ℚ) (days : ℕ) :
    List ForecastPoint :=
  (List.range days).map (fun (j : ℕ) =>
    let i := j + 1
    let confidence_margin := 10 * sqrtf i
    { date := today + (i : ℤ)
      risk_score := round1 last_score
      confidence_low := round1 (max 0 (last_score - confidence_margin))
      confidence_high := round1 (min 100 (last_score + confidence_margin)) })

/-- From `RiskEngine.calculate_forecast`: `[]` on an empty history, a flat
forecast below 3 points, else an exponentially smoothed linear projection
with an expanding `5.0 * sqrt(i)` band. -/
def calculate_forecast (sqrtf : ℕ → ℚ) (today : ℤ) (historical_data : List HistPoint)
    (days : ℕ) : List ForecastPoint :=
  match historical_data with
  | [] => []
  | _ :: _ =>
    let sorted_data := sortAscDate historical_data
    let scores := sorted_data.map (fun d => d.risk_score.getD 50)
    if scores.length < 3 then
      let last_score := match scores.getLast? with | some s => s | none => 50
      generate_flat_forecast sqrtf today last_score days
    else
      let smoothed := expSmooth scores
      let s_last := match smoothed.getLast? with | some s => s | none => 0
      let recent_trend :=
        if 7 ≤ smoothed.length then (s_last - smoothed.getD (smoothed.length - 7) 0) / 7
        else (s_last - smoothed.headD 0) / (smoothed.length : ℚ)
      let last_date := match sorted_data.getLast? with | some d => d.date | none => 0
      (List.range days).map (fun (j : ℕ) =>
        let i := j + 1
        let forecast_score := max 0 (min 100 (s_last + recent_trend * (i : ℚ)))
        let confidence_margin := 5 * sqrtf i
        { date := last_date + (i : ℤ)
          risk_score := round1 forecast_score
          confidence_low := round1 (max 0 (forecast_score - confidence_margin))
          confidence_high := round1 (min 100 (forecast_score + confidence_margin)) })

/-- Last known score used by the flat-forecast branch: the `risk_score` of
the last date-sorted historical point (`scores[-1]`), default `50.0`. -/
def lastKnownScore (historical_data : List HistPoint) : ℚ :=
  match (sortAscDate historical_data).getLast? with
  | some d => d.risk_score.getD 50
  | none => 50

/-- Claim C7 (counterexample): `calculate_risk` reads the ambient clock: on
identical immutable inputs (three same-day samples, one flow record), a call
at day 1 yields confidence 1.0 while a call at day 20 yields 0.5 (staleness
penalty), and the two results also differ in their `last_updated` stamp. -/
theorem clock_changes_output :
    (calculate_risk 1 "loc"
      [⟨some 0, none, some (1/2)⟩, ⟨some 0, none, some (1/2)⟩, ⟨some 0, none, some (1/2)⟩]
      (some [⟨"A", 10⟩]) (some [("A", 50)])).confidence = 1 ∧
    (calculate_risk 20 "loc"
      [⟨some 0, none, some (1/2)⟩, ⟨some 0, none, some (1/2)⟩, ⟨some 0, none, some (1/2)⟩]
      (some [⟨"A", 10⟩]) (some [("A", 50)])).confidence = 1/2 ∧
    calculate_risk 1 "loc"
      [⟨some 0, none, some (1/2)⟩, ⟨some 0, none, some (1/2)⟩, ⟨some 0, none, some (1/2)⟩]
      (some [⟨"A", 10⟩]) (some [("A", 50)]) ≠
    calculate_risk 20 "loc"
      [⟨some 0, none, some (1/2)⟩, ⟨some 0, none, some (1/2)⟩, ⟨some 0, none, some (1/2)⟩]
      (some [⟨"A", 10⟩]) (some [("A", 50)]) := by
  refine ⟨?_, ?_, ?_⟩
  · norm_num [calculate_risk, calculate_confidence, firstMaxTs, emptyOpt, tsLt, tsKey,
      MIN_DATA_POINTS, MAX_DATA_AGE_DAYS]
  · norm_num [calculate_risk, calculate_confidence, firstMaxTs, emptyOpt, tsLt, tsKey,
      MIN_DATA_POINTS, MAX_DATA_AGE_DAYS]
  · intro h
    have hlu := congrArg RiskCalculation.last_updated h
    simp only [calculate_risk] at hlu
    norm_num at hlu

/-- Claim C7 (amended): the risk score, the three components and the trend
label are deterministic functions of the explicit inputs only — changing the
clock reading leaves them bit-identical; only `confidence` and `last_updated`
read the clock.  With the clock fixed, the whole result is a pure function of
its inputs. -/
theorem clock_independent_score_components_trend
    (now now' : ℤ) (loc : String) (ww : List Sample)
    (fd : Option (List Flight)) (rm : Option RiskMap) :
    (calculate_risk now loc ww fd rm).risk_score = (calculate_risk now' loc ww fd rm).risk_score ∧
    (calculate_risk now loc ww fd rm).components = (calculate_risk now' loc ww fd rm).components ∧
    (calculate_risk now loc ww fd rm).trend = (calculate_risk now' loc ww fd rm).trend :=
  ⟨rfl, rfl, rfl⟩

/-- The spec's reference scenario: 7 strictly increasing normalized scores at
timestamps 0..6. -/
def risingSeries : List Sample :=
  [⟨some 0, none, some (2/10)⟩, ⟨some 1, none, some (3/10)⟩, ⟨some 2, none, some (4/10)⟩,
   ⟨some 3, none, some (5/10)⟩, ⟨some 4, none, some (6/10)⟩, ⟨some 5, none, some (7/10)⟩,
   ⟨some 6, none, some (8/10)⟩]

/-- The mirror scenario: 7 strictly decreasing normalized scores. -/
def fallingSeries : List Sample :=
  [⟨some 0, none, some (8/10)⟩, ⟨some 1, none, some (7/10)⟩, ⟨some 2, none, some (6/10)⟩,
   ⟨some 3, none, some (5/10)⟩, ⟨some 4, none, some (4/10)⟩, ⟨some 5, none, some (3/10)⟩,
   ⟨some 6, none, some (2/10)⟩]

/-- A 7-point series constant at score `c` (timestamps 0..6). -/
def constSeries (c : ℚ) : List Sample :=
  [⟨some 0, none, some c⟩, ⟨some 1, none, some c⟩, ⟨some 2, none, some c⟩,
   ⟨some 3, none, some c⟩, ⟨some 4, none, some c⟩, ⟨some 5, none, some c⟩,
   ⟨some 6, none, some c⟩]


/-- Claim C2 (counterexample): with no wastewater samples, no flow data and an
empty risk map, `calculate_risk` returns `risk_score = 0.4*50 + 0.3*50 + 0.3*30
= 44.0`, not the `47.0` the claim states. -/
theorem no_data_risk_score_is_44_not_47 :
    (calculate_risk 0 "loc" [] none (some [])).risk_score = 44 ∧
    (calculate_risk 0 "loc" [] none (some [])).risk_score ≠ 47 := by
  constructor
  · norm_num [calculate_risk, calculate_wastewater_component, calculate_velocity_component,
      calculate_import_component, composeScore, sortDescTs, emptyOpt,
      WEIGHT_WASTEWATER, WEIGHT_VELOCITY, WEIGHT_IMPORT]
  · norm_num [calculate_risk, calculate_wastewater_component, calculate_velocity_component,
      calculate_import_component, composeScore, sortDescTs, emptyOpt,
      WEIGHT_WASTEWATER, WEIGHT_VELOCITY, WEIGHT_IMPORT]

/-- Claim C2 (amended): with no wastewater samples, no flow data and an empty
risk map, `risk_score = 44.0` (= 0.4*50 + 0.3*50 + 0.3*30) and `confidence =
0.45 ≤ 0.5*0.9` (both missing-data penalties apply). -/
theorem no_data_risk_score_and_confidence :
    (calculate_risk 0 "loc" [] none (some [])).risk_score = 44 ∧
    (calculate_risk 0 "loc" [] none (some [])).confidence ≤ 9/20 := by
  constructor
  · norm_num [calculate_risk, calculate_wastewater_component, calculate_velocity_component,
      calculate_import_component, composeScore, sortDescTs, emptyOpt,
      WEIGHT_WASTEWATER, WEIGHT_VELOCITY, WEIGHT_IMPORT]
  · norm_num [calculate_risk, calculate_confidence, emptyOpt, MIN_DATA_POINTS]

/-- Claim C5 (counterexample): a non-empty flow list and non-empty risk map
with total passenger count 0 yield `import_component = 30.0` (the early
default), not the `0` the claim derives. -/
theorem import_component_zero_pax_not_zero :
    calculate_import_component (some [⟨"A", 0⟩]) (some [("A", 90)]) = 30 ∧
    calculate_import_component (some [⟨"A", 0⟩]) (some [("A", 90)]) ≠ 0 := by
  constructor
  · norm_num [calculate_import_component, emptyOpt]
  · norm_num [calculate_import_component, emptyOpt]

/-- Claim C5 (amended): for every non-empty flow list and non-empty risk map
whose total passenger count is 0, the code takes the `total_passengers == 0`
early return and yields `import_component = 30.0`. -/
theorem import_component_zero_pax_default (fl : List Flight) (rm : RiskMap)
    (h1 : fl ≠ []) (h2 : rm ≠ [])
    (h3 : (fl.map (fun f => f.passengers)).sum = 0) :
    calculate_import_component (some fl) (some rm) = 30 := by
  obtain ⟨f, fl', rfl⟩ : ∃ f fl', fl = f :: fl' := by
    cases fl with
    | nil => exact absurd rfl h1
    | cons a l => exact ⟨a, l, rfl⟩
  obtain ⟨p, rm', rfl⟩ : ∃ p rm', rm = p :: rm' := by
    cases rm with
    | nil => exact absurd rfl h2
    | cons a l => exact ⟨a, l, rfl⟩
  simp only [calculate_import_component, emptyOpt, List.isEmpty_cons, Bool.or_self,
    Bool.false_eq_true, if_false, Option.getD_some, h3, if_true, if_pos]

/-- Claim C5 witness. -/
theorem import_component_zero_pax_default_witness :
    ([⟨"A", 3⟩, ⟨"B", -3⟩] : List Flight) ≠ [] ∧ ([("A", 90)] : RiskMap) ≠ [] ∧
    (([⟨"A", 3⟩, ⟨"B", -3⟩] : List Flight).map (fun f => f.passengers)).sum = 0 ∧
    calculate_import_component (some [⟨"A", 3⟩, ⟨"B", -3⟩]) (some [("A", 90)]) = 30 :=
  ⟨by simp, by simp, by simp, import_component_zero_pax_default _ _ (by simp) (by simp) (by simp)⟩

/-- Claim C6: the weight constants do sum to 1.0 exactly (in exact rational
arithmetic), but `RiskEngine.__init__` is a bare `pass`: no validation runs at
construction time and no error can ever be raised there. -/
theorem engineInit_no_validation :
    engineInit = Except.ok () ∧ WEIGHT_WASTEWATER + WEIGHT_VELOCITY + WEIGHT_IMPORT = 1 :=
  ⟨rfl, by norm_num [WEIGHT_WASTEWATER, WEIGHT_VELOCITY, WEIGHT_IMPORT]⟩

/-- Claim C9: the composed risk score is monotone (non-decreasing) in each of
the three components: the weights 0.4, 0.3, 0.3 are non-negative. -/
theorem composeScore_monotone (w v i w' v' i' : ℚ)
    (hw : w ≤ w') (hv : v ≤ v') (hi : i ≤ i') :
    composeScore w v i ≤ composeScore w' v' i' := by
  unfold composeScore WEIGHT_WASTEWATER WEIGHT_VELOCITY WEIGHT_IMPORT
  gcongr

/-- Claim C9 witness. -/
theorem composeScore_monotone_witness :
    (10 : ℚ) ≤ 15 ∧ (20 : ℚ) ≤ 20 ∧ (30 : ℚ) ≤ 30 ∧
    composeScore 10 20 30 ≤ composeScore 15 20 30 :=
  ⟨by norm_num, le_rfl, le_rfl,
    composeScore_monotone 10 20 30 15 20 30 (by norm_num) le_rfl le_rfl⟩

/-- Membership is preserved (backwards) by descending insertion. -/
theorem mem_of_mem_insertDescTs {x a : Sample} {l : List Sample}
    (h : x ∈ insertDescTs a l) : x = a ∨ x ∈ l := by
  induction l with
  | nil =>
    simp only [insertDescTs, List.mem_singleton] at h
    exact Or.inl h
  | cons y ys ih =>
    unfold insertDescTs at h
    split at h
    · rcases List.mem_cons.mp h with h1 | h2
      · exact Or.inr (h1 ▸ List.mem_cons_self y ys)
      · rcases ih h2 with h3 | h4
        · exact Or.inl h3
        · exact Or.inr (List.mem_cons_of_mem y h4)
    · rcases List.mem_cons.mp h with h1 | h2
      · exact Or.inl h1
      · exact Or.inr h2

/-- Every element of the descending sort comes from the input list. -/
theorem mem_of_mem_sortDescTs {x : Sample} {l : List Sample}
    (h : x ∈ sortDescTs l) : x ∈ l := by
  induction l with
  | nil =>
    simp only [sortDescTs] at h
    exact absurd h (List.not_mem_nil x)
  | cons y ys ih =>
    unfold sortDescTs at h
    rcases mem_of_mem_insertDescTs h with h1 | h2
    · exact h1 ▸ List.mem_cons_self y ys
    · exact List.mem_cons_of_mem y (ih h2)

/-- Bounds of the per-sample wastewater score, given a non-negative raw load:
the normalized path is clamped on both sides, the raw path only from above,
so non-negativity of `raw_load` is what keeps it in range. -/
theorem scoreOfRecent_bounds (s : Sample) (h : 0 ≤ s.raw_load.getD 0) :
    0 ≤ scoreOfRecent s ∧ scoreOfRecent s ≤ 100 := by
  rcases hns : s.normalized_score with _ | ns
  · rcases hr : s.raw_load with _ | r
    · norm_num [scoreOfRecent, hns, hr]
    · have hr0 : 0 ≤ r := by simpa [hr] using h
      have hq : 0 ≤ r / WASTEWATER_MAX := by
        apply div_nonneg hr0
        norm_num [WASTEWATER_MAX]
      simp only [scoreOfRecent, hns, hr]
      constructor
      · have : (0:ℚ) ≤ min 1 (r / WASTEWATER_MAX) := le_min (by norm_num) hq
        nlinarith
      · have : min 1 (r / WASTEWATER_MAX) ≤ 1 := min_le_left _ _
        nlinarith
  · simp only [scoreOfRecent, hns]
    constructor
    · exact le_min (by norm_num) (le_max_left 0 _)
    · exact min_le_left _ _

/-- Bounds of the wastewater component when every sample's raw load is
non-negative. -/
theorem calculate_wastewater_component_bounds (ww : List Sample)
    (h : ∀ s ∈ ww, 0 ≤ s.raw_load.getD 0) :
    0 ≤ calculate_wastewater_component ww ∧ calculate_wastewater_component ww ≤ 100 := by
  unfold calculate_wastewater_component
  cases hs : sortDescTs ww with
  | nil => norm_num
  | cons recent rest =>
    have hm : recent ∈ ww := mem_of_mem_sortDescTs (hs ▸ List.mem_cons_self recent rest)
    exact scoreOfRecent_bounds recent (h recent hm)

/-- Bounds of the clamp-and-rescale step at the end of the velocity
component. -/
theorem velocityMap_bounds (q : ℚ) :
    0 ≤ (max (-VELOCITY_MAX) (min VELOCITY_MAX q) / VELOCITY_MAX + 1) / 2 * 100 ∧
    (max (-VELOCITY_MAX) (min VELOCITY_MAX q) / VELOCITY_MAX + 1) / 2 * 100 ≤ 100 := by
  have h1 : -VELOCITY_MAX ≤ max (-VELOCITY_MAX) (min VELOCITY_MAX q) := le_max_left _ _
  have h2 : max (-VELOCITY_MAX) (min VELOCITY_MAX q) ≤ VELOCITY_MAX :=
    max_le (by norm_num [VELOCITY_MAX]) (min_le_left _ _)
  unfold VELOCITY_MAX at h1 h2 ⊢
  constructor
  · rw [div_eq_mul_inv]
    nlinarith
  · rw [div_eq_mul_inv]
    nlinarith

/-- Bounds of the velocity component: it always ends in the clamp. -/
theorem calculate_velocity_component_bounds (ww : List Sample) :
    0 ≤ calculate_velocity_component ww ∧ calculate_velocity_component ww ≤ 100 := by
  unfold calculate_velocity_component
  split
  · norm_num
  · exact velocityMap_bounds _

/-- Bounds of the import component: every branch is either a default or a
two-sided clamp. -/
theorem calculate_import_component_bounds (fd : Option (List Flight)) (rm : Option RiskMap) :
    0 ≤ calculate_import_component fd rm ∧ calculate_import_component fd rm ≤ 100 := by
  unfold calculate_import_component
  split
  · norm_num
  · dsimp only
    split
    · norm_num
    · exact ⟨le_min (by norm_num) (le_max_left 0 _), min_le_left _ _⟩

/-- Bounds of the confidence value: the final `max(0.1, min(1.0, ·))` clamp
forces the range regardless of the penalty product. -/
theorem calculate_confidence_bounds (now : ℤ) (ww : List Sample) (fd : Option (List Flight)) :
    1/10 ≤ calculate_confidence now ww fd ∧ calculate_confidence now ww fd ≤ 1 := by
  unfold calculate_confidence
  exact ⟨le_max_left _ _, max_le (by norm_num) (min_le_left _ _)⟩

/-- Claim C1 (counterexample): the raw-load path of the Signal Normalizer has
no lower clamp (`min(1.0, raw/1e9) * 100`), so a single sample with
`raw_load = -1e9` (an adversarial negative upstream value) yields
`wastewater_load = -100` and `risk_score = -16`, both outside `[0, 100]`. -/
theorem negative_raw_load_breaks_bounds :
    (calculate_risk 0 "loc" [⟨some 0, some (-(10^9)), none⟩] none none).components.wastewater_load
      = -100 ∧
    (calculate_risk 0 "loc" [⟨some 0, some (-(10^9)), none⟩] none none).risk_score = -16 ∧
    ¬ (0 ≤ (calculate_risk 0 "loc" [⟨some 0, some (-(10^9)), none⟩] none none).risk_score) := by
  refine ⟨?_, ?_, ?_⟩ <;>
    norm_num [calculate_risk, calculate_wastewater_component, calculate_velocity_component,
      calculate_import_component, composeScore, sortDescTs, insertDescTs, scoreOfRecent,
      emptyOpt, WASTEWATER_MAX, WEIGHT_WASTEWATER, WEIGHT_VELOCITY, WEIGHT_IMPORT]

/-- Claim C1 (amended): for every input in which each sample's `raw_load`,
when present, is non-negative (NaN is not representable in this model), the
result of `calculate_risk` satisfies all the claimed range invariants:
`risk_score ∈ [0,100]`, each component in `[0,100]`, and
`confidence ∈ [0.1, 1.0]`.  The restriction is forced by the missing lower
clamp on the raw-load path exhibited in the counterexample. -/
theorem calculate_risk_bounds (now : ℤ) (loc : String) (ww : List Sample)
    (fd : Option (List Flight)) (rm : Option RiskMap)
    (h : ww.all (fun s => decide (0 ≤ s.raw_load.getD 0)) = true) :
    0 ≤ (calculate_risk now loc ww fd rm).risk_score ∧
    (calculate_risk now loc ww fd rm).risk_score ≤ 100 ∧
    0 ≤ (calculate_risk now loc ww fd rm).components.wastewater_load ∧
    (calculate_risk now loc ww fd rm).components.wastewater_load ≤ 100 ∧
    0 ≤ (calculate_risk now loc ww fd rm).components.growth_velocity ∧
    (calculate_risk now loc ww fd rm).components.growth_velocity ≤ 100 ∧
    0 ≤ (calculate_risk now loc ww fd rm).components.import_pressure ∧
    (calculate_risk now loc ww fd rm).components.import_pressure ≤ 100 ∧
    1/10 ≤ (calculate_risk now loc ww fd rm).confidence ∧
    (calculate_risk now loc ww fd rm).confidence ≤ 1 := by
  have h' : ∀ s ∈ ww, 0 ≤ s.raw_load.getD 0 := by
    simpa [List.all_eq_true, decide_eq_true_eq] using h
  obtain ⟨hw0, hw1⟩ := calculate_wastewater_component_bounds ww h'
  obtain ⟨hv0, hv1⟩ := calculate_velocity_component_bounds ww
  obtain ⟨hi0, hi1⟩ := calculate_import_component_bounds fd rm
  obtain ⟨hc0, hc1⟩ := calculate_confidence_bounds now ww fd
  have hrs : (calculate_risk now loc ww fd rm).risk_score =
      composeScore (calculate_wastewater_component ww) (calculate_velocity_component ww)
        (calculate_import_component fd rm) := rfl
  have hcw : (calculate_risk now loc ww fd rm).components.wastewater_load =
      calculate_wastewater_component ww := rfl
  have hcv : (calculate_risk now loc ww fd rm).components.growth_velocity =
      calculate_velocity_component ww := rfl
  have hci : (calculate_risk now loc ww fd rm).components.import_pressure =
      calculate_import_component fd rm := rfl
  have hcc : (calculate_risk now loc ww fd rm).confidence =
      calculate_confidence now ww fd := rfl
  rw [hrs, hcw, hcv, hci, hcc]
  unfold composeScore WEIGHT_WASTEWATER WEIGHT_VELOCITY WEIGHT_IMPORT
  refine ⟨by linarith, by linarith, hw0, hw1, hv0, hv1, hi0, hi1, hc0, hc1⟩

/-- Claim C1 witness. -/
theorem calculate_risk_bounds_witness :
    ([(⟨some 0, none, some (3/10)⟩ : Sample)].all
        (fun s => decide (0 ≤ s.raw_load.getD 0)) = true) ∧
    0 ≤ (calculate_risk 0 "loc" [⟨some 0, none, some (3/10)⟩]
          (some [⟨"A", 100⟩]) (some [("A", 80)])).risk_score ∧
    (calculate_risk 0 "loc" [⟨some 0, none, some (3/10)⟩]
          (some [⟨"A", 100⟩]) (some [("A", 80)])).risk_score ≤ 100 ∧
    0 ≤ (calculate_risk 0 "loc" [⟨some 0, none, some (3/10)⟩]
          (some [⟨"A", 100⟩]) (some [("A", 80)])).components.wastewater_load ∧
    (calculate_risk 0 "loc" [⟨some 0, none, some (3/10)⟩]
          (some [⟨"A", 100⟩]) (some [("A", 80)])).components.wastewater_load ≤ 100 ∧
    0 ≤ (calculate_risk 0 "loc" [⟨some 0, none, some (3/10)⟩]
          (some [⟨"A", 100⟩]) (some [("A", 80)])).components.growth_velocity ∧
    (calculate_risk 0 "loc" [⟨some 0, none, some (3/10)⟩]
          (some [⟨"A", 100⟩]) (some [("A", 80)])).components.growth_velocity ≤ 100 ∧
    0 ≤ (calculate_risk 0 "loc" [⟨some 0, none, some (3/10)⟩]
          (some [⟨"A", 100⟩]) (some [("A", 80)])).components.import_pressure ∧
    (calculate_risk 0 "loc" [⟨some 0, none, some (3/10)⟩]
          (some [⟨"A", 100⟩]) (some [("A", 80)])).components.import_pressure ≤ 100 ∧
    1/10 ≤ (calculate_risk 0 "loc" [⟨some 0, none, some (3/10)⟩]
          (some [⟨"A", 100⟩]) (some [("A", 80)])).confidence ∧
    (calculate_risk 0 "loc" [⟨some 0, none, some (3/10)⟩]
          (some [⟨"A", 100⟩]) (some [("A", 80)])).confidence ≤ 1 :=
  ⟨by simp, calculate_risk_bounds 0 "loc" _ _ _ (by simp)⟩

/-- Claim C10: when `normalized_score` is `0.0` or absent, `_get_load` falls
back to `raw_load / 1e9`, and to `0.0` when the raw load is also `0.0` or
absent; and `_calculate_average_load` drops zero-load samples from both the
numerator and the denominator, so inserting such a sample anywhere leaves the
rolling average unchanged. -/
theorem get_load_zero_score_fallback (s : Sample) (r : ℚ) (l₁ l₂ : List Sample)
    (hns : s.normalized_score = some 0 ∨ s.normalized_score = none) :
    (s.raw_load = some r → r ≠ 0 → get_load s = r / WASTEWATER_MAX) ∧
    ((s.raw_load = some 0 ∨ s.raw_load = none) → get_load s = 0) ∧
    (get_load s = 0 →
      calculate_average_load (l₁ ++ s :: l₂) = calculate_average_load (l₁ ++ l₂)) := by
  have hfall : get_load s = rawLoadPart s := by
    rcases hns with h | h <;> simp [get_load, h]
  refine ⟨?_, ?_, ?_⟩
  · intro hr hr0
    rw [hfall]
    simp [rawLoadPart, hr, hr0]
  · intro hr
    rw [hfall]
    rcases hr with h | h <;> simp [rawLoadPart, h]
  · intro hz
    have hfil : ((l₁ ++ s :: l₂).map get_load).filter (fun l => decide (0 < l)) =
        ((l₁ ++ l₂).map get_load).filter (fun l => decide (0 < l)) := by
      simp only [List.map_append, List.filter_append, List.map_cons, List.filter_cons, hz]
      norm_num
    unfold calculate_average_load
    rw [hfil]

/-- Claim C10 witness. -/
theorem get_load_zero_score_fallback_witness :
    ((⟨some 0, none, some 0⟩ : Sample).normalized_score = some 0 ∨
      (⟨some 0, none, some 0⟩ : Sample).normalized_score = none) ∧
    (((⟨some 0, none, some 0⟩ : Sample).raw_load = some 1 → (1:ℚ) ≠ 0 →
        get_load ⟨some 0, none, some 0⟩ = 1 / WASTEWATER_MAX) ∧
      (((⟨some 0, none, some 0⟩ : Sample).raw_load = some 0 ∨
          (⟨some 0, none, some 0⟩ : Sample).raw_load = none) →
        get_load ⟨some 0, none, some 0⟩ = 0) ∧
      (get_load ⟨some 0, none, some 0⟩ = 0 →
        calculate_average_load
            [⟨some 0, none, some (1/2)⟩, ⟨some 0, none, some 0⟩, ⟨some 1, none, some (1/4)⟩] =
          calculate_average_load [⟨some 0, none, some (1/2)⟩, ⟨some 1, none, some (1/4)⟩])) :=
  ⟨Or.inl rfl,
    get_load_zero_score_fallback ⟨some 0, none, some 0⟩ 1
      [⟨some 0, none, some (1/2)⟩] [⟨some 1, none, some (1/4)⟩] (Or.inl rfl)⟩

/-- Transitivity of the timestamp order. -/
theorem tsLt_trans {a b c : Option ℤ} (h1 : tsLt a b = true) (h2 : tsLt b c = true) :
    tsLt a c = true := by
  rcases a with _ | a <;> rcases b with _ | b <;> rcases c with _ | c <;> simp_all [tsLt]
  all_goals omega

/-- Negative transitivity of the timestamp order (it is total). -/
theorem tsLt_neg_trans {a b c : Option ℤ} (h1 : tsLt a b = false) (h2 : tsLt b c = false) :
    tsLt a c = false := by
  rcases a with _ | a <;> rcases b with _ | b <;> rcases c with _ | c <;> simp_all [tsLt]
  all_goals omega

/-- Head of a descending insertion: the incoming element wins only on a
strictly larger key, so earlier-listed elements win timestamp ties. -/
theorem head_insertDescTs (x : Sample) (l : List Sample) :
    (insertDescTs x l).head? = some (match l.head? with
      | none => x
      | some y => if tsLt (tsKey x) (tsKey y) then y else x) := by
  cases l with
  | nil => rfl
  | cons y ys =>
    simp only [insertDescTs, List.head?_cons]
    split <;> simp

/-- Python's `max` over a cons cell, expressed through the tail's maximum. -/
theorem firstMaxTs_cons (x y : Sample) (ys : List Sample) :
    firstMaxTs x (y :: ys) =
      if tsLt (tsKey x) (tsKey (firstMaxTs y ys)) then firstMaxTs y ys else x := by
  induction ys generalizing x y with
  | nil => simp [firstMaxTs]
  | cons z zs ih =>
    have unfold1 : ∀ (a b : Sample) (l : List Sample),
        firstMaxTs a (b :: l) =
          firstMaxTs (if tsLt (tsKey a) (tsKey b) then b else a) l := fun _ _ _ => rfl
    rw [unfold1 x y (z :: zs), ih, ih y z]
    by_cases h1 : tsLt (tsKey x) (tsKey y) = true
    · by_cases h2 : tsLt (tsKey y) (tsKey (firstMaxTs z zs)) = true
      · have h3 : tsLt (tsKey x) (tsKey (firstMaxTs z zs)) = true := tsLt_trans h1 h2
        simp [h1, h2, h3]
      · simp [h1, h2]
    · by_cases h2 : tsLt (tsKey y) (tsKey (firstMaxTs z zs)) = true
      · simp [h1, h2]
      · have h3 : tsLt (tsKey x) (tsKey (firstMaxTs z zs)) = false :=
          tsLt_neg_trans (Bool.eq_false_iff.mpr h1) (Bool.eq_false_iff.mpr h2)
        simp [h1, h2, h3]

/-- Head of the stable descending sort: the FIRST input element attaining the
maximal timestamp, exactly Python's `max(…, key=timestamp)`. -/
theorem head_sortDescTs (x : Sample) (xs : List Sample) :
    (sortDescTs (x :: xs)).head? = some (firstMaxTs x xs) := by
  induction xs generalizing x with
  | nil => rfl
  | cons y ys ih =>
    have hh := ih y
    rw [show sortDescTs (x :: y :: ys) = insertDescTs x (sortDescTs (y :: ys)) from rfl,
      head_insertDescTs, hh, firstMaxTs_cons]

/-- Claim C8 (counterexample): two samples share the maximal timestamp; the
component is computed from the FIRST one in the input list (score 0.2 → 20),
not from the latest-ingested one (score 0.9 → 90): Python's stable
`sorted(…, reverse=True)` keeps equal keys in input order. -/
theorem wastewater_tie_prefers_first_listed :
    calculate_wastewater_component
        [⟨some 5, none, some (1/5)⟩, ⟨some 5, none, some (9/10)⟩] = 20 ∧
    calculate_wastewater_component
        [⟨some 5, none, some (1/5)⟩, ⟨some 5, none, some (9/10)⟩] ≠ 90 := by
  constructor <;>
    norm_num [calculate_wastewater_component, sortDescTs, insertDescTs, scoreOfRecent,
      tsLt, tsKey]

/-- Claim C8 (amended): the Signal Normalizer computes the wastewater
component from the first sample of the input list attaining the maximal
timestamp (ties broken by EARLIEST ingestion order, since the stable
descending sort preserves input order among equal keys). -/
theorem wastewater_component_uses_first_max (x : Sample) (xs : List Sample) :
    calculate_wastewater_component (x :: xs) = scoreOfRecent (firstMaxTs x xs) := by
  unfold calculate_wastewater_component
  have h := head_sortDescTs x xs
  cases hs : sortDescTs (x :: xs) with
  | nil => rw [hs] at h; simp at h
  | cons r rest =>
    rw [hs] at h
    simp only [List.head?_cons, Option.some.injEq] at h
    rw [h]

/-- Length is preserved by ascending insertion. -/
theorem length_insertAscTs (x : Sample) (l : List Sample) :
    (insertAscTs x l).length = l.length + 1 := by
  induction l with
  | nil => rfl
  | cons y ys ih =>
    unfold insertAscTs
    split
    · simp [ih]
    · simp

/-- Length is preserved by the ascending sort. -/
theorem length_sortAscTs (l : List Sample) : (sortAscTs l).length = l.length := by
  induction l with
  | nil => rfl
  | cons x xs ih =>
    unfold sortAscTs
    rw [length_insertAscTs, ih]
    rfl

/-- With exactly 7 samples the recent-week window (`sorted[-7:]`) and the
prior-week window (`sorted[:7]`, since fewer than 14 samples exist) are the
same list, so the week-over-week velocity is 0 and the growth component is
exactly the neutral 50. -/
theorem velocity_component_of_length_seven (ww : List Sample) (h : ww.length = 7) :
    calculate_velocity_component ww = 50 := by
  have hlen : (sortAscTs ww).length = 7 := by rw [length_sortAscTs]; exact h
  unfold calculate_velocity_component
  rw [if_neg (by omega)]
  simp only [hlen, Nat.sub_self, List.drop_zero, List.take_of_length_le hlen.le]
  norm_num [sub_self, zero_div, ite_self, VELOCITY_MAX]

/-- The OLS trend of an all-equal load list is "stable": the slope numerator
vanishes because every load equals the mean. -/
theorem trendOfLoads_replicate (n : ℕ) (c : ℚ) (h3 : 3 ≤ n) :
    trendOfLoads (List.replicate n c) = "stable" := by
  have hn0 : (n : ℚ) ≠ 0 := by
    have : 0 < n := by omega
    exact_mod_cast Nat.pos_iff_ne_zero.mp this
  have hy : (List.replicate n c).sum / (n : ℚ) = c := by
    rw [List.sum_replicate, nsmul_eq_mul, mul_comm, mul_div_assoc, div_self hn0, mul_one]
  have hnum : ((List.range n).map (fun (i : ℕ) =>
      ((i : ℚ) - (((n : ℚ)) - 1) / 2) * ((List.replicate n c).getD i 0 - c))).sum = 0 := by
    apply List.sum_eq_zero
    intro x hx
    rcases List.mem_map.mp hx with ⟨i, hi, rfl⟩
    have hilt : i < n := List.mem_range.mp hi
    rw [List.getD_eq_getElem?_getD, List.getElem?_replicate, if_pos hilt]
    simp
  unfold trendOfLoads
  rw [if_neg (by simp [List.length_replicate]; omega)]
  simp only [List.length_replicate, hy, hnum, zero_div, ite_self]
  have hc0 : classifySlope 0 = "stable" := by
    norm_num [classifySlope, TREND_RISING_THRESHOLD, TREND_FALLING_THRESHOLD]
  rw [hc0, ite_self]

/-- The ascending sort leaves the (already sorted) constant series alone. -/
theorem sortAscTs_constSeries (c : ℚ) : sortAscTs (constSeries c) = constSeries c := by
  simp [constSeries, sortAscTs, insertAscTs, tsLt, tsKey]

/-- Trend of the constant 7-point series: always "stable", whatever `c`. -/
theorem trend_of_constSeries (c : ℚ) : determine_trend (constSeries c) = "stable" := by
  unfold determine_trend
  rw [if_neg (by simp [constSeries])]
  simp only [sortAscTs_constSeries]
  have hmap : ((constSeries c).drop ((constSeries c).length - 7)).map get_load =
      List.replicate 7 (if c = 0 then 0 else c) := by
    by_cases hc : c = 0 <;>
      simp [constSeries, get_load, rawLoadPart, hc, List.replicate]
  rw [hmap]
  exact trendOfLoads_replicate 7 _ (by norm_num)

/-- Trend of the reference increasing series is "rising" (relative OLS slope
0.2 > 0.05). -/
theorem trend_of_risingSeries : determine_trend risingSeries = "rising" := by
  norm_num [determine_trend, risingSeries, sortAscTs, insertAscTs, tsLt, tsKey, get_load,
    rawLoadPart, trendOfLoads, classifySlope, List.range_succ,
    TREND_RISING_THRESHOLD, TREND_FALLING_THRESHOLD]

/-- Trend of the reference decreasing series is "falling" (relative OLS slope
-0.2 < -0.05). -/
theorem trend_of_fallingSeries : determine_trend fallingSeries = "falling" := by
  norm_num [determine_trend, fallingSeries, sortAscTs, insertAscTs, tsLt, tsKey, get_load,
    rawLoadPart, trendOfLoads, classifySlope, List.range_succ,
    TREND_RISING_THRESHOLD, TREND_FALLING_THRESHOLD]

/-- Claim C3 (counterexample): on the spec's own scenario — the strictly
increasing 7-point series — the growth component is exactly 50, not > 50: with
exactly 7 samples the code compares the last-7 window with itself (`sorted[:7]`),
so the velocity is 0.  The trend label is still "rising". -/
theorem increasing_seven_growth_is_exactly_50 :
    calculate_velocity_component risingSeries = 50 ∧
    ¬ (50 < calculate_velocity_component risingSeries) ∧
    determine_trend risingSeries = "rising" := by
  have h50 : calculate_velocity_component risingSeries = 50 :=
    velocity_component_of_length_seven _ (by norm_num [risingSeries])
  exact ⟨h50, by rw [h50]; norm_num, trend_of_risingSeries⟩

/-- Claim C3 (amended): every 7-point series yields growth component exactly
50 (the recent and prior 7-sample windows coincide when only 7 samples
exist); the trend classifier behaves as claimed on the reference series: the
strictly increasing series 0.2..0.8 is "rising", its mirror is "falling", and
a constant series is "stable" (with growth component 50). -/
theorem seven_point_growth_and_trend (data : List Sample) (c : ℚ)
    (h : data.length = 7) :
    calculate_velocity_component data = 50 ∧
    determine_trend risingSeries = "rising" ∧
    determine_trend fallingSeries = "falling" ∧
    determine_trend (constSeries c) = "stable" ∧
    calculate_velocity_component (constSeries c) = 50 :=
  ⟨velocity_component_of_length_seven data h, trend_of_risingSeries, trend_of_fallingSeries,
    trend_of_constSeries c,
    velocity_component_of_length_seven _ (by norm_num [constSeries])⟩

/-- Claim C3 witness. -/
theorem seven_point_growth_and_trend_witness :
    fallingSeries.length = 7 ∧
    (calculate_velocity_component fallingSeries = 50 ∧
      determine_trend risingSeries = "rising" ∧
      determine_trend fallingSeries = "falling" ∧
      determine_trend (constSeries 1) = "stable" ∧
      calculate_velocity_component (constSeries 1) = 50) :=
  ⟨by norm_num [fallingSeries],
    seven_point_growth_and_trend fallingSeries 1 (by norm_num [fallingSeries])⟩

/-- Length is preserved by date insertion. -/
theorem length_insertAscDate (x : HistPoint) (l : List HistPoint) :
    (insertAscDate x l).length = l.length + 1 := by
  induction l with
  | nil => rfl
  | cons y ys ih =>
    unfold insertAscDate
    split
    · simp [ih]
    · simp

/-- Length is preserved by the date sort. -/
theorem length_sortAscDate (l : List HistPoint) : (sortAscDate l).length = l.length := by
  induction l with
  | nil => rfl
  | cons x xs ih =>
    unfold sortAscDate
    rw [length_insertAscDate, ih]
    rfl

/-- Shape of the `j`-th flat forecast point. -/
theorem generate_flat_forecast_getD (sqrtf : ℕ → ℚ) (today : ℤ) (ls : ℚ) (days j : ℕ)
    (hj : j < days) :
    (generate_flat_forecast sqrtf today ls days).getD j ⟨0, 0, 0, 0⟩ =
      ⟨today + ((j + 1 : ℕ) : ℤ), round1 ls, round1 (max 0 (ls - 10 * sqrtf (j + 1))),
        round1 (min 100 (ls + 10 * sqrtf (j + 1)))⟩ := by
  unfold generate_flat_forecast
  rw [List.getD_eq_getElem?_getD, List.getElem?_map, List.getElem?_range hj]
  rfl

/-- On fewer than 3 historical points `calculate_forecast` reduces to the
flat forecast at the last known (date-sorted) score. -/
theorem calculate_forecast_short_eq_flat (sqrtf : ℕ → ℚ) (today : ℤ)
    (a : HistPoint) (t : List HistPoint) (days : ℕ)
    (h3 : (a :: t).length < 3) :
    calculate_forecast sqrtf today (a :: t) days =
      generate_flat_forecast sqrtf today (lastKnownScore (a :: t)) days := by
  have hsl : ((sortAscDate (a :: t)).map (fun d => d.risk_score.getD 50)).length < 3 := by
    rw [List.length_map, length_sortAscDate]
    exact h3
  simp only [calculate_forecast]
  rw [if_pos hsl]
  congr 1
  unfold lastKnownScore
  rw [List.getLast?_map]
  cases hgl : (sortAscDate (a :: t)).getLast? with
  | none => simp
  | some d => simp

/-- Claim C4 (counterexample): on the EMPTY historical series
`calculate_forecast` returns `[]` — zero points, not the `days` flat points
at the default 50.0 that the claim requires (here `days = 7`). -/
theorem empty_history_forecast_is_empty :
    calculate_forecast (fun n => (n : ℚ)) 0 [] 7 = [] ∧
    (calculate_forecast (fun n => (n : ℚ)) 0 [] 7).length ≠ 7 := by
  constructor
  · rfl
  · norm_num [calculate_forecast]

/-- Claim C4 (amended): for every NON-empty historical series with fewer than
3 points and horizon `days ≥ 1`, `calculate_forecast` returns exactly `days`
points, each carrying the last known (date-sorted) score rounded to one
decimal and the `10.0 * sqrt(i)` confidence band (clamped to `[0,100]` and
rounded) for step `i = j+1`; the empty series instead short-circuits to `[]`
(the counterexample), and there the "default 50.0" branch is unreachable. -/
theorem short_history_flat_forecast (sqrtf : ℕ → ℚ) (today : ℤ)
    (hist : List HistPoint) (days j : ℕ)
    (h0 : hist ≠ []) (h3 : hist.length < 3) (_hd : 1 ≤ days) (hj : j < days) :
    (calculate_forecast sqrtf today hist days).length = days ∧
    ((calculate_forecast sqrtf today hist days).getD j ⟨0, 0, 0, 0⟩).risk_score =
      round1 (lastKnownScore hist) ∧
    ((calculate_forecast sqrtf today hist days).getD j ⟨0, 0, 0, 0⟩).confidence_low =
      round1 (max 0 (lastKnownScore hist - 10 * sqrtf (j + 1))) ∧
    ((calculate_forecast sqrtf today hist days).getD j ⟨0, 0, 0, 0⟩).confidence_high =
      round1 (min 100 (lastKnownScore hist + 10 * sqrtf (j + 1))) ∧
    ((calculate_forecast sqrtf today hist days).getD j ⟨0, 0, 0, 0⟩).date =
      today + ((j + 1 : ℕ) : ℤ) := by
  obtain ⟨a, t, rfl⟩ : ∃ a t, hist = a :: t := by
    cases hist with
    | nil => exact absurd rfl h0
    | cons a t => exact ⟨a, t, rfl⟩
  rw [calculate_forecast_short_eq_flat sqrtf today a t days h3,
    generate_flat_forecast_getD sqrtf today _ days j hj]
  refine ⟨?_, rfl, rfl, rfl, rfl⟩
  simp [generate_flat_forecast]

/-- Claim C4 witness. -/
theorem short_history_flat_forecast_witness :
    ([(⟨0, some 42⟩ : HistPoint)] ≠ []) ∧
    ([(⟨0, some 42⟩ : HistPoint)].length < 3) ∧ (1 ≤ 2) ∧ (1 < 2) ∧
    ((calculate_forecast (fun n => (n : ℚ)) 0 [⟨0, some 42⟩] 2).length = 2 ∧
      ((calculate_forecast (fun n => (n : ℚ)) 0 [⟨0, some 42⟩] 2).getD 1 ⟨0, 0, 0, 0⟩).risk_score =
        round1 (lastKnownScore [⟨0, some 42⟩]) ∧
      ((calculate_forecast (fun n => (n : ℚ)) 0 [⟨0, some 42⟩] 2).getD 1 ⟨0, 0, 0, 0⟩).confidence_low =
        round1 (max 0 (lastKnownScore [⟨0, some 42⟩] - 10 * ((1 + 1 : ℕ) : ℚ))) ∧
      ((calculate_forecast (fun n => (n : ℚ)) 0 [⟨0, some 42⟩] 2).getD 1 ⟨0, 0, 0, 0⟩).confidence_high =
        round1 (min 100 (lastKnownScore [⟨0, some 42⟩] + 10 * ((1 + 1 : ℕ) : ℚ))) ∧
      ((calculate_forecast (fun n => (n : ℚ)) 0 [⟨0, some 42⟩] 2).getD 1 ⟨0, 0, 0, 0⟩).date =
        (0 : ℤ) + ((1 + 1 : ℕ) : ℤ)) :=
  ⟨by simp, by norm_num, by norm_num, by norm_num,
    short_history_flat_forecast (fun n => (n : ℚ)) 0 [⟨0, some 42⟩] 2 1
      (by simp) (by norm_num) (by norm_num) (by norm_num)⟩

end RiskEngine
